import Mathlib

/-!
Verification of the hepic_server telemetry gateway against its design
specification.  The Python source is shallowly embedded: pure parsing code
becomes pure Lean functions, the stateful worker/connector code becomes
explicit state passing over a scripted device behaviour, and the two thread
bodies whose claims concern lock discipline and operation ordering become
explicit action traces transcribed statement by statement from the source.
-/

/- ### Python primitives used by the codec -/

/-- ASCII whitespace as recognised by Python `str.split()` / `str.strip()`
(space, tab, newline, carriage return, vertical tab, form feed). -/
def isPySpace (c : Char) : Bool :=
  c = ' ' ∨ c = '\t' ∨ c = '\n' ∨ c = '\r' ∨ c = '\x0b' ∨ c = '\x0c'

/-- Python `str.strip()`. -/
def pyStrip (s : String) : String :=
  ⟨((s.data.dropWhile isPySpace).reverse.dropWhile isPySpace).reverse⟩

/-- Accumulate the fields of a whitespace split: `cur` is the reversed
current field, `acc` the fields already produced. -/
def pySplitAux : List Char → List Char → List String → List String
  | [], cur, acc => if cur = [] then acc else acc ++ [⟨cur.reverse⟩]
  | c :: cs, cur, acc =>
    if isPySpace c then
      if cur = [] then pySplitAux cs [] acc
      else pySplitAux cs [] (acc ++ [⟨cur.reverse⟩])
    else pySplitAux cs (c :: cur) acc

/-- Python `str.split()` with no argument: split on runs of whitespace,
producing no empty fields. -/
def pySplit (s : String) : List String := pySplitAux s.data [] []

/-- The value space of Python floats.  Finite values are kept exact as
rationals: the code never computes with the parsed weight, it only stores
it, so binary64 rounding is not modelled. -/
inductive PyFloat where
  | finite (q : ℚ)
  | inf (neg : Bool)
  | nan
deriving DecidableEq, Repr

/-- ASCII lower-casing, as used by Python float() keyword matching. -/
def pyLower (c : Char) : Char :=
  if 'A' ≤ c ∧ c ≤ 'Z' then Char.ofNat (c.toNat + 32) else c

/-- Consume a run of decimal digits, allowing a single `sep` character
between two digits (CPython literal grammar).  Returns the accumulated
value, the number of digits consumed, and the rest of the input. -/
def pyDigitsAux : List Char → Nat → Nat → Nat × Nat × List Char
  | [], v, n => (v, n, [])
  | c :: cs, v, n =>
    if c.isDigit then pyDigitsAux cs (10 * v + (c.toNat - 48)) (n + 1)
    else if c = '_' ∧ n ≠ 0 then
      match cs with
      | c2 :: _ => if c2.isDigit then pyDigitsAux cs v n else (v, n, c :: cs)
      | [] => (v, n, c :: cs)
    else (v, n, c :: cs)

/-- Numeric part of Python `float()` after the optional sign: digits,
optional fraction, optional exponent.  Returns `none` when the characters
are not a valid float literal. -/
def pyFloatNum (neg : Bool) (cs : List Char) : Option PyFloat :=
  let (iv, ic, rest1) := pyDigitsAux cs 0 0
  let fracStep : Nat × Nat × List Char :=
    match rest1 with
    | '.' :: cs2 => pyDigitsAux cs2 0 0
    | _ => (0, 0, rest1)
  let fv := fracStep.1
  let fc := fracStep.2.1
  let rest2 := fracStep.2.2
  if ic + fc = 0 then none
  else
    -- exact value (intPart.fracPart) × 10^exp, built as one rational
    let mkVal : Nat → Nat → PyFloat := fun numPow denPow =>
      let n : Int := (iv * 10 ^ fc + fv) * 10 ^ numPow
      .finite (mkRat (if neg then -n else n) (10 ^ fc * 10 ^ denPow))
    match rest2 with
    | [] => some (mkVal 0 0)
    | e :: cs3 =>
      if e = 'e' ∨ e = 'E' then
        let expPart : Bool × List Char :=
          match cs3 with
          | '+' :: t => (false, t)
          | '-' :: t => (true, t)
          | t => (false, t)
        let eneg := expPart.1
        let (ev, ecnt, rest5) := pyDigitsAux expPart.2 0 0
        if ecnt = 0 ∨ rest5 ≠ [] then none
        else if eneg then some (mkVal 0 ev)
        else some (mkVal ev 0)
      else none

/-- Model of Python `float(s)`: strip whitespace, optional sign, then either
one of the keywords `inf`/`infinity`/`nan` (case-insensitive) or a decimal
literal with optional fraction and exponent.  `none` models `ValueError`. -/
def pyFloat? (s : String) : Option PyFloat :=
  let cs := ((s.data.dropWhile isPySpace).reverse.dropWhile isPySpace).reverse
  match cs with
  | [] => none
  | _ =>
    let signStep : Bool × List Char :=
      match cs with
      | '+' :: t => (false, t)
      | '-' :: t => (true, t)
      | t => (false, t)
    let neg := signStep.1
    let cs1 := signStep.2
    let low := cs1.map pyLower
    if low = ("inf".data) ∨ low = ("infinity".data) then some (.inf neg)
    else if low = ("nan".data) then some .nan
    else pyFloatNum neg cs1

example : pyFloat? "1.0000" = some (.finite 1) := rfl
example : pyFloat? "GARBAGE" = none := rfl
example : pyFloat? "-2.5e1" = some (.finite (-25)) := rfl
example : pyFloat? "1_0.5" = some (.finite (mkRat 21 2)) := rfl
example : pyFloat? "1__0" = none := rfl
example : pyFloat? "Inf" = some (.inf false) := rfl

/- ### WireProtocolCodec: MettlerWorker.parse_six1_response
   (src/src/hepic_server/workers/mettler_worker.py lines 51-74,
   identical in src/hepic_server.py lines 247-270) -/

/-- Python exception classes relevant to the embedded code. -/
inductive PyExc where
  | valueError
  | indexError
  | typeError
  | unboundLocal
deriving DecidableEq, Repr

/-- One decoded weighing-scale reading: the dict built by
`parse_six1_response` (status code, gross weight, unit). -/
structure Reading where
  status : String
  gross : PyFloat
  unitStr : String
deriving DecidableEq, Repr

/-- `parts[i]`: list indexing that raises `IndexError` when out of range. -/
def pyListGet (l : List String) (i : Nat) : Except PyExc String :=
  match l.get? i with
  | some x => .ok x
  | none => .error .indexError

/-- `float(s)` as a raising operation: `ValueError` on an invalid literal. -/
def pyFloatE (s : String) : Except PyExc PyFloat :=
  match pyFloat? s with
  | some f => .ok f
  | none => .error .valueError

/-- The `try:` body of `parse_six1_response`: read `parts[1]`, `parts[2]`,
`parts[3]`, convert the gross token with `float`, build the dict; the
first raising operation aborts the body with its exception. -/
def parseTryBody (parts : List String) : Except PyExc Reading :=
  match pyListGet parts 1 with
  | .error e => .error e
  | .ok status_code =>
    match pyListGet parts 2 with
    | .error e => .error e
    | .ok gross_str =>
      match pyListGet parts 3 with
      | .error e => .error e
      | .ok unitTok =>
        match pyFloatE gross_str with
        | .error e => .error e
        | .ok g => .ok { status := status_code, gross := g, unitStr := unitTok }

/-- Result of `parse_six1_response`.  In the source both failure branches
return `None`; they are distinguished here by site, matching the two
diagnostics the spec names: `errMalformed` is the early `return None` after
the token-count / leading-token check, `errNumeric` is the `return None`
from the `except (IndexError, ValueError)` handler.  `raised e` would be an
exception escaping the function (see the C6 theorem: it never happens). -/
inductive ParseOutcome where
  | ok (r : Reading)
  | errMalformed
  | errNumeric
  | raised (e : PyExc)
deriving DecidableEq, Repr

/-- `MettlerWorker.parse_six1_response`: strip and split the response,
reject when fewer than 4 tokens or the leading token is not "S", then run
the `try:` body with `except (IndexError, ValueError)` returning `None`. -/
def parse_six1_response (response_str : String) : ParseOutcome :=
  let parts := pySplit (pyStrip response_str)
  if parts.length < 4 ∨ parts.headD "" ≠ "S" then .errMalformed
  else
    match parseTryBody parts with
    | .ok r => .ok r
    | .error .indexError => .errNumeric
    | .error .valueError => .errNumeric
    | .error e => .raised e

/-- True exactly when the outcome is an exception escaping the parser. -/
def ParseOutcome.isRaised : ParseOutcome → Bool
  | .raised _ => true
  | _ => false

/-- The caller-visible value of `parse_six1_response`: the dict on success,
`None` on either failure branch. -/
def parse_six1_option (s : String) : Option Reading :=
  match parse_six1_response s with
  | .ok r => some r
  | _ => none

example : parse_six1_response "S S 1.0000 kg" =
    .ok { status := "S", gross := .finite 1, unitStr := "kg" } := by decide
example : parse_six1_response "GARBAGE" = .errMalformed := by decide
example : parse_six1_response "S S abc kg" = .errNumeric := by decide
example : parse_six1_response " S  D  12.5  g  extra " =
    .ok { status := "D", gross := .finite (mkRat 25 2), unitStr := "g" } := by decide

/- ### DeviceWorker: MettlerWorker
   (src/src/hepic_server/workers/mettler_worker.py lines 4-77; the
   superseded top-level copy src/hepic_server.py lines 201-273 differs only
   in that `run` does not initialise `writer = None` before the `try:`) -/

namespace MettlerWorker

/-- Log records the worker emits, identified by site. -/
inductive LogEvent where
  | infoOpening      -- "Opening connection to ..."
  | infoClosing      -- "Closing Mettler connection."
  | infoCancelled    -- "Mettler worker cancelled."
  | errConnectFail   -- "Failed to connect to Mettler ..." (TimeoutError / ConnectionRefusedError)
  | errWorkerError   -- "Mettler worker error: ..." (catch-all Exception)
deriving DecidableEq, Repr

/-- Observable state of a `MettlerWorker` object, plus connection-resource
bookkeeping (`connOpened`/`connClosed` track the `writer` stream). -/
structure WState where
  weight : PyFloat
  is_running : Bool
  connOpened : Bool
  connClosed : Bool
  log : List LogEvent
deriving DecidableEq, Repr

/-- State after `__init__`: `weight = float("nan")`, not running. -/
def init : WState :=
  { weight := .nan, is_running := false, connOpened := false,
    connClosed := false, log := [] }

/-- `MettlerWorker.stop()`: clear the `is_running` flag. -/
def stop (st : WState) : WState := { st with is_running := false }

/-- What the scripted device/environment does during one iteration of the
polling loop. -/
inductive CycleEvent where
  | response (s : String)  -- reader.read returns these bytes, decoded as ASCII
  | readTimeout            -- wait_for(reader.read, 2.0) raises asyncio.TimeoutError
  | connError              -- write/drain raises (caught by `except Exception`)
  | cancelled              -- the task is cancelled at an await point
  | stopRequest            -- stop() is called from outside during this cycle
deriving DecidableEq, Repr

/-- How control leaves the `while self.is_running` loop (the non-`normal`
cases are the exceptions flowing to `run`'s `except` clauses). -/
inductive RunExit where
  | normal       -- the while-condition was false
  | scriptEnd    -- script exhausted with the loop still polling
  | connectFail  -- except (asyncio.TimeoutError, ConnectionRefusedError)
  | cancelled    -- except asyncio.CancelledError
  | exception    -- except Exception
deriving DecidableEq, Repr

/-- One iteration of the polling loop body (mettler_worker.py lines 24-36).
On a response, `parse_six1_response` is called and its result is
subscripted unguarded: `self.weight = weight_data["gross"]`, so a `None`
result raises `TypeError`, which flows to the `except Exception` clause. -/
def loopStep (st : WState) (e : CycleEvent) : WState × Option RunExit :=
  match e with
  | .stopRequest => (stop st, none)
  | .connError => ({ st with log := st.log ++ [LogEvent.errWorkerError] }, some .exception)
  | .readTimeout => ({ st with log := st.log ++ [LogEvent.errConnectFail] }, some .connectFail)
  | .cancelled => ({ st with log := st.log ++ [LogEvent.infoCancelled] }, some .cancelled)
  | .response s =>
    match parse_six1_option s with
    | some r => ({ st with weight := r.gross }, none)
    | none => ({ st with log := st.log ++ [LogEvent.errWorkerError] }, some .exception)

/-- The `while self.is_running:` loop, driven by the scripted events. -/
def pollLoop : List CycleEvent → WState → WState × RunExit
  | [], st => if st.is_running then (st, .scriptEnd) else (st, .normal)
  | e :: rest, st =>
    if st.is_running then
      match loopStep st e with
      | (st', some x) => (st', x)
      | (st', none) => pollLoop rest st'
    else (st, .normal)

/-- The `finally:` block of `run` (lines 44-49): only when `writer` is not
`None` — i.e. a connection was opened — clear `is_running` and close the
connection. -/
def finallyBlock (st : WState) : WState :=
  if st.connOpened then
    { st with is_running := false, connClosed := true,
              log := st.log ++ [LogEvent.infoClosing] }
  else st

/-- Outcome of the connection attempt (`asyncio.wait_for(open_connection,
timeout=2.0)`). -/
inductive ConnectOutcome where
  | ok
  | timeout   -- asyncio.TimeoutError
  | refused   -- ConnectionRefusedError
deriving DecidableEq, Repr

/-- Value of a completed `run()` call: the final object state, how the loop
ended, and the exception escaping to the caller, if any. -/
structure RunResult where
  state : WState
  exitKind : RunExit
  escaped : Option PyExc
deriving DecidableEq, Repr

/-- `MettlerWorker.run` (workers/mettler_worker.py lines 15-49):
`writer = None`; set `is_running = True`; connect with a 2 s bound; poll
while running.  Each `except` clause only logs, so no exception escapes;
the `finally` block closes the connection if one was opened. -/
def run (st0 : WState) (c : ConnectOutcome) (evs : List CycleEvent) : RunResult :=
  let st1 := { st0 with is_running := true, log := st0.log ++ [LogEvent.infoOpening] }
  match c with
  | .ok =>
    let st2 := { st1 with connOpened := true }
    let step := pollLoop evs st2
    { state := finallyBlock step.1, exitKind := step.2, escaped := none }
  | .timeout =>
    { state := finallyBlock { st1 with log := st1.log ++ [LogEvent.errConnectFail] },
      exitKind := .connectFail, escaped := none }
  | .refused =>
    { state := finallyBlock { st1 with log := st1.log ++ [LogEvent.errConnectFail] },
      exitKind := .connectFail, escaped := none }

/-- `MettlerWorker.run` as written in the superseded top-level copy
(src/hepic_server.py lines 212-245): identical except that `writer` is
never initialised before the `try:`, so when the connection attempt fails
the `finally:` block's `if writer:` reads an unbound local and
`UnboundLocalError` escapes to the caller. -/
def runOld (st0 : WState) (c : ConnectOutcome) (evs : List CycleEvent) : RunResult :=
  let st1 := { st0 with is_running := true, log := st0.log ++ [LogEvent.infoOpening] }
  match c with
  | .ok =>
    let st2 := { st1 with connOpened := true }
    let step := pollLoop evs st2
    { state := finallyBlock step.1, exitKind := step.2, escaped := none }
  | .timeout =>
    { state := { st1 with log := st1.log ++ [LogEvent.errConnectFail] },
      exitKind := .connectFail, escaped := some .unboundLocal }
  | .refused =>
    { state := { st1 with log := st1.log ++ [LogEvent.errConnectFail] },
      exitKind := .connectFail, escaped := some .unboundLocal }

end MettlerWorker

example :
    (MettlerWorker.run MettlerWorker.init MettlerWorker.ConnectOutcome.ok
      [MettlerWorker.CycleEvent.response "S S 1.0000 kg",
       MettlerWorker.CycleEvent.response "GARBAGE",
       MettlerWorker.CycleEvent.response "S S 2.0000 kg"]).state.weight
      = PyFloat.finite 1 := by decide
example :
    (MettlerWorker.run MettlerWorker.init MettlerWorker.ConnectOutcome.ok
      [MettlerWorker.CycleEvent.response "S S 1.0000 kg",
       MettlerWorker.CycleEvent.response "GARBAGE",
       MettlerWorker.CycleEvent.response "S S 2.0000 kg"]).exitKind
      = MettlerWorker.RunExit.exception := by decide
example :
    (MettlerWorker.run MettlerWorker.init MettlerWorker.ConnectOutcome.timeout
      []).state.is_running = true := by decide

/- ### ResilientConnector: RobustPLC (src/pi_server.py lines 203-360) -/

namespace RobustPLC

/-- Observable state of a `RobustPLC` object: the cached `_is_connected`
flag.  The raw snap7 session itself is modelled by the per-call device
behaviour below. -/
structure PLCState where
  is_connected : Bool
deriving DecidableEq, Repr

/-- What the underlying snap7 client does when an operation is issued:
either it succeeds with a value or it raises `Snap7Exception`. -/
inductive DevOp (α : Type) where
  | ok (a : α)
  | raises
deriving DecidableEq, Repr

/-- `RobustPLC.is_connected` (lines 228-235): under the lock, when the
cached flag is set, refresh it from the lightweight `get_connected()`
probe; otherwise report `False` without touching the device. -/
def is_connected (st : PLCState) (probe : Bool) : PLCState × Bool :=
  if st.is_connected then ({ st with is_connected := probe }, probe)
  else (st, false)

/-- Value of one `read_db`/`write_db` call: the new state, the Python
return value, the number of db operations actually issued to the device,
and the exception escaping the call, if any. -/
structure RWResult (α : Type) where
  state : PLCState
  ret : α
  dbAttempts : Nat
  escaped : Option PyExc
deriving DecidableEq, Repr

/-- `RobustPLC.read_db` (lines 324-341): fail fast with `None` when
disconnected; otherwise issue one locked `db_read`, and on
`Snap7Exception` log, clear `_is_connected` and return `None`. -/
def read_db (st : PLCState) (probe : Bool) (dev : DevOp (List Nat)) :
    RWResult (Option (List Nat)) :=
  let checked := is_connected st probe
  if checked.2 = false then
    { state := checked.1, ret := none, dbAttempts := 0, escaped := none }
  else
    match dev with
    | .ok d =>
      { state := checked.1, ret := some d, dbAttempts := 1, escaped := none }
    | .raises =>
      { state := { checked.1 with is_connected := false }, ret := none,
        dbAttempts := 1, escaped := none }

/-- `RobustPLC.write_db` (lines 343-360): fail fast with `False` when
disconnected; otherwise issue one locked `db_write`, and on
`Snap7Exception` log, clear `_is_connected` and return `False`. -/
def write_db (st : PLCState) (probe : Bool) (_data : List Nat)
    (dev : DevOp Unit) : RWResult Bool :=
  let checked := is_connected st probe
  if checked.2 = false then
    { state := checked.1, ret := false, dbAttempts := 0, escaped := none }
  else
    match dev with
    | .ok _ =>
      { state := checked.1, ret := true, dbAttempts := 1, escaped := none }
    | .raises =>
      { state := { checked.1 with is_connected := false }, ret := false,
        dbAttempts := 1, escaped := none }

/-- A sequence of `read_db` calls, each with its own probe result and
device behaviour; returns the final state and the list of return values. -/
def readSeq : List (Bool × DevOp (List Nat)) → PLCState →
    PLCState × List (Option (List Nat))
  | [], st => (st, [])
  | (p, d) :: rest, st =>
    let r := read_db st p d
    let step := readSeq rest r.state
    (step.1, r.ret :: step.2)

/- #### The background reconnection thread, as a lock/sleep action trace -/

/-- Atomic steps of `_reconnect_handler`, in source order: mutex acquire
and release, timed sleeps, device accesses, and writes to the cached
connection flag. -/
inductive PAction where
  | acquire
  | release
  | sleep (secs : Nat)
  | devConnectAttempt
  | devProbe
  | setFlag (b : Bool)
deriving DecidableEq, Repr

/-- One iteration of the `while` loop of `RobustPLC._reconnect_handler`
(src/pi_server.py lines 300-322), transcribed statement by statement.
When disconnected: `with self._lock:` then — still inside the lock —
`time.sleep(self.reconnect_interval)`, one `connect` attempt
(`connectRaises` tells whether it raises `Snap7Exception`), and on success
a `get_connected()` probe that may set the flag.  When connected: a probe
under the lock, demoting the flag on failure.  Either way the iteration
ends with an unlocked `time.sleep(self.reconnect_interval)`. -/
def reconnectTick (interval : Nat) (connected : Bool) (connectRaises : Bool)
    (probeOk : Bool) : List PAction :=
  if connected = false then
    [.acquire, .sleep interval, .devConnectAttempt]
      ++ (if connectRaises then []
          else [.devProbe] ++ (if probeOk then [.setFlag true] else []))
      ++ [.release, .sleep interval]
  else
    [.acquire, .devProbe] ++ (if probeOk then [] else [.setFlag false])
      ++ [.release, .sleep interval]

/-- Total seconds slept while the mutex is held (lock depth > 0). -/
def sleepWhileLockedAux : List PAction → Nat → Nat → Nat
  | [], _, acc => acc
  | a :: rest, depth, acc =>
    match a with
    | .acquire => sleepWhileLockedAux rest (depth + 1) acc
    | .release => sleepWhileLockedAux rest (depth - 1) acc
    | .sleep q =>
      sleepWhileLockedAux rest depth (if depth ≠ 0 then acc + q else acc)
    | _ => sleepWhileLockedAux rest depth acc

/-- Total seconds the background tick sleeps while holding the mutex that
every foreground operation (`connect`, `is_connected`, `read_db`,
`write_db`) must acquire. -/
def sleepWhileLocked (as : List PAction) : Nat := sleepWhileLockedAux as 0 0

end RobustPLC

/- ### BroadcastServer shutdown (PiServer._shutdown, both revisions) -/

/-- Steps `_shutdown` performs, in order. -/
inductive ShutdownAction where
  | closeServer            -- self.server.close()
  | waitServerClosed       -- await self.server.wait_closed()
  | cancelSessionTask (i : Nat)  -- task.cancel() on a tracked client task
  | awaitSessionTasks      -- await asyncio.gather(*self.client_tasks, ...)
  | signalWorkerStop       -- self.mettler_worker.stop()
  | awaitWorkerBounded     -- await asyncio.wait_for(self.mettler_task, timeout=2.0)
  | forceCancelWorker      -- self.mettler_task.cancel() on TimeoutError
  | stopEventLoop          -- asyncio.get_running_loop().stop()
deriving DecidableEq, Repr

/-- `PiServer._shutdown` of the packaged revision
(src/src/hepic_server/hepic_server.py lines 165-200), transcribed in
source order: close the server (its `wait_closed` is commented out),
cancel and await every tracked client task, then — when a worker task
exists — await it with a 2 s bound, cancelling it on timeout.  Note that
no `mettler_worker.stop()` call appears: the revision only logs at the
point where the superseded revision called it. -/
def shutdownTrace (nSessions : Nat) (hasWorkerTask : Bool)
    (workerTimesOut : Bool) : List ShutdownAction :=
  [.closeServer]
    ++ (if nSessions ≠ 0 then
          ((List.range nSessions).map .cancelSessionTask) ++ [.awaitSessionTasks]
        else [])
    ++ (if hasWorkerTask then
          [.awaitWorkerBounded] ++ (if workerTimesOut then [.forceCancelWorker] else [])
        else [])
    ++ [.stopEventLoop]

/-- `PiServer._shutdown` of the superseded top-level revision
(src/hepic_server.py lines 133-157): close the server and wait for it,
then signal the worker with `stop()` and await it with a 2 s bound,
cancelling on timeout.  Tracked session tasks are never cancelled. -/
def shutdownTraceOld (hasWorkerTask : Bool) (workerTimesOut : Bool) :
    List ShutdownAction :=
  [.closeServer, .waitServerClosed]
    ++ (if hasWorkerTask then
          [.signalWorkerStop, .awaitWorkerBounded]
            ++ (if workerTimesOut then [.forceCancelWorker] else [])
        else [])

/- ### Process-level failure handling (PiServer.run / _load_config) -/

/-- Severities of the Python logging module. -/
inductive LogLevel where
  | debug | info | warning | error | critical
deriving DecidableEq, Repr

/-- How the serving path can fail. -/
inductive ServeFault where
  | noFault          -- serve_forever runs without failure
  | bindFail         -- asyncio.start_server raises OSError (cannot bind)
  | serveException   -- any other exception escaping the serve loop
deriving DecidableEq, Repr

/-- How the coroutine handed to `asyncio.run` ends: still serving, a
`SystemExit(code)` raised by `sys.exit(code)` propagating out of
`asyncio.run`, or a plain return. -/
inductive RunOutcome where
  | serving            -- still inside serve_forever
  | sysExit (code : Nat)  -- sys.exit(code) raised SystemExit(code)
  | returns            -- run() returned normally
deriving DecidableEq, Repr

/-- What becomes of the whole process. -/
inductive ProcOutcome where
  | serving            -- still inside serve_forever
  | exitCode (n : Nat)   -- the interpreter terminated with this exit code
deriving DecidableEq, Repr

/-- `PiServer.run` of src/pi_server.py (lines 175-192): any exception from
`start_server`/`serve_forever` — a bind failure included — is caught by
`except Exception`, logged at critical severity, and `sys.exit(1)` raises
`SystemExit(1)` out of the coroutine. -/
def piServerRun (f : ServeFault) : RunOutcome × List LogLevel :=
  match f with
  | .noFault => (.serving, [.info])
  | .bindFail => (.sysExit 1, [.critical])
  | .serveException => (.sysExit 1, [.critical])

/-- `PiServer.run` of the packaged revision
(src/src/hepic_server/hepic_server.py lines 221-234): `except Exception`
logs at plain error severity and falls through; `run()` returns — no
`sys.exit` call. -/
def hepicServerRun (f : ServeFault) : RunOutcome × List LogLevel :=
  match f with
  | .noFault => (.serving, [.info])
  | .bindFail => (.returns, [.error])
  | .serveException => (.returns, [.error])

/-- `PiServer._load_config` (both revisions): a missing configuration file
prints to stderr and calls `sys.exit(1)`; otherwise the config is loaded.
`some code` models the raised `SystemExit(code)`. -/
def loadConfig (configExists : Bool) : Option Nat :=
  if configExists then none else some 1

/-- The `__main__` block of src/pi_server.py (lines 363-376) — the
`main()` of the packaged revision (lines 246-257) has the same shape —
parameterised by which revision's `run` it drives.  `PiServer(...)` is
constructed first, OUTSIDE the `try:`, so `_load_config`'s
`SystemExit(1)` on a missing configuration file propagates uncaught and
the interpreter exits with code 1.  Then `asyncio.run(server_app.run())`
executes inside `try: ... except (KeyboardInterrupt, SystemExit):`, whose
handler only logs "program closed": a `SystemExit` raised by `run()` —
e.g. the bind-failure `sys.exit(1)` — is swallowed there, the script
falls off its end, and the interpreter exits with code 0.  A plain return
from `run()` likewise ends the script with exit code 0. -/
def serverMain (runFn : ServeFault → RunOutcome × List LogLevel)
    (configExists : Bool) (f : ServeFault) : ProcOutcome × List LogLevel :=
  match loadConfig configExists with
  | some code => (.exitCode code, [])
  | none =>
    match runFn f with
    | (.serving, logs) => (.serving, logs)
    | (.sysExit _, logs) => (.exitCode 0, logs ++ [.info])
    | (.returns, logs) => (.exitCode 0, logs)

/-- The src/pi_server.py process, end to end. -/
def piMain (configExists : Bool) (f : ServeFault) : ProcOutcome × List LogLevel :=
  serverMain piServerRun configExists f

/-- The packaged hepic_server process, end to end. -/
def hepicMain (configExists : Bool) (f : ServeFault) : ProcOutcome × List LogLevel :=
  serverMain hepicServerRun configExists f

/- ### Theorems -/

/-- `pyListGet` either yields an element or fails with `IndexError`. -/
theorem pyListGet_cases (l : List String) (i : Nat) :
    (∃ x, pyListGet l i = .ok x) ∨ pyListGet l i = .error .indexError := by
  unfold pyListGet
  cases l.get? i <;> simp

/-- `pyFloatE` either yields a value or fails with `ValueError`. -/
theorem pyFloatE_cases (s : String) :
    (∃ f, pyFloatE s = .ok f) ∨ pyFloatE s = .error .valueError := by
  unfold pyFloatE
  cases pyFloat? s <;> simp

/-- The `try:` body of the parser can only fail with `IndexError` or
`ValueError` — exactly the classes named by its `except` clause. -/
theorem parseTryBody_exc (parts : List String) (e : PyExc)
    (h : parseTryBody parts = .error e) :
    e = .indexError ∨ e = .valueError := by
  unfold parseTryBody at h
  rcases pyListGet_cases parts 1 with ⟨a, h1⟩ | h1 <;> simp only [h1] at h
  · rcases pyListGet_cases parts 2 with ⟨b, h2⟩ | h2 <;> simp only [h2] at h
    · rcases pyListGet_cases parts 3 with ⟨c, h3⟩ | h3 <;> simp only [h3] at h
      · rcases pyFloatE_cases b with ⟨f, h4⟩ | h4 <;> simp only [h4] at h
        · exact absurd h (by simp)
        · simp only [Except.error.injEq] at h
          exact Or.inr h.symm
      · simp only [Except.error.injEq] at h
        exact Or.inl h.symm
    · simp only [Except.error.injEq] at h
      exact Or.inl h.symm
  · simp only [Except.error.injEq] at h
    exact Or.inl h.symm

/-- Claim C5: for every device response whose whitespace-separated tokens
are exactly `S <status> <w> <unit>` with `w` a valid Python float literal,
`parse_six1_response` succeeds and returns precisely that float as the
gross weight, the second token as the status, and the fourth as the unit. -/
theorem parse_six1_wellformed (s status w unitTok : String) (f : PyFloat)
    (htok : pySplit (pyStrip s) = ["S", status, w, unitTok])
    (hw : pyFloat? w = some f) :
    parse_six1_response s =
      .ok { status := status, gross := f, unitStr := unitTok } := by
  have hbody : parseTryBody ["S", status, w, unitTok] =
      .ok { status := status, gross := f, unitStr := unitTok } := by
    simp [parseTryBody, pyListGet, pyFloatE, hw]
  simp only [parse_six1_response, htok, hbody]
  simp

/-- Witness for C5 at the response from the spec scenario. -/
theorem parse_six1_wellformed_witness :
    parse_six1_response "S S 1.0000 kg" =
      .ok { status := "S", gross := .finite 1, unitStr := "kg" } :=
  parse_six1_wellformed "S S 1.0000 kg" "S" "1.0000" "kg" (.finite 1)
    (by decide) (by decide)

/-- Claim C6: for every input string, `parse_six1_response` answers the
malformed-response error when there are fewer than four tokens or the
leading token is not `"S"`, answers the numeric-parse error when the
shape is right but the weight token is not a valid float, and never lets
an exception escape the codec boundary. -/
theorem parse_six1_malformed (s : String) :
    ((pySplit (pyStrip s)).length < 4 ∨ (pySplit (pyStrip s)).headD "" ≠ "S" →
       parse_six1_response s = .errMalformed)
    ∧ (∀ status w unitTok rest,
        pySplit (pyStrip s) = "S" :: status :: w :: unitTok :: rest →
        pyFloat? w = none → parse_six1_response s = .errNumeric)
    ∧ (parse_six1_response s).isRaised = false := by
  refine ⟨?_, ?_, ?_⟩
  · intro h
    simp only [parse_six1_response]
    rw [if_pos h]
  · intro status w unitTok rest htok hw
    have hbody : parseTryBody ("S" :: status :: w :: unitTok :: rest) =
        .error .valueError := by
      simp [parseTryBody, pyListGet, pyFloatE, hw]
    simp only [parse_six1_response, htok, hbody]
    rw [if_neg (by simp)]
  · simp only [parse_six1_response]
    by_cases h : (pySplit (pyStrip s)).length < 4 ∨
        (pySplit (pyStrip s)).headD "" ≠ "S"
    · rw [if_pos h]
      rfl
    · rw [if_neg h]
      rcases hb : parseTryBody (pySplit (pyStrip s)) with e | r
      · rcases parseTryBody_exc _ _ hb with rfl | rfl <;> rfl
      · rfl

/-- Witness for C6: both error classifications and the no-escape guarantee
at concrete malformed inputs. -/
theorem parse_six1_malformed_witness :
    parse_six1_response "GARBAGE" = .errMalformed
    ∧ parse_six1_response "S S abc kg" = .errNumeric
    ∧ (parse_six1_response "S S abc kg").isRaised = false :=
  ⟨(parse_six1_malformed "GARBAGE").1 (by decide),
   (parse_six1_malformed "S S abc kg").2.1 "S" "abc" "kg" [] (by decide) (by decide),
   (parse_six1_malformed "S S abc kg").2.2⟩

namespace MettlerWorker

/-- A loop whose `while self.is_running` condition is already false does
nothing, whatever the script holds. -/
theorem pollLoop_not_running (evs : List CycleEvent) (st : WState)
    (h : st.is_running = false) : pollLoop evs st = (st, .normal) := by
  cases evs <;> simp [pollLoop, h]

/-- No loop iteration touches the connection-resource flags. -/
theorem loopStep_conn (st : WState) (e : CycleEvent) :
    ((loopStep st e).1.connOpened = st.connOpened)
    ∧ ((loopStep st e).1.connClosed = st.connClosed) := by
  cases e with
  | response s =>
    rcases h : parse_six1_option s with _ | r <;> simp [loopStep, h]
  | _ => simp [loopStep, stop]

/-- The polling loop never touches the connection-resource flags. -/
theorem pollLoop_conn (evs : List CycleEvent) : ∀ st : WState,
    ((pollLoop evs st).1.connOpened = st.connOpened)
    ∧ ((pollLoop evs st).1.connClosed = st.connClosed) := by
  induction evs with
  | nil =>
    intro st
    by_cases h : st.is_running <;> simp [pollLoop, h]
  | cons e rest ih =>
    intro st
    by_cases h : st.is_running
    · rcases hs : loopStep st e with ⟨st', x⟩
      have hc := loopStep_conn st e
      rw [hs] at hc
      cases x with
      | none =>
        have := ih st'
        simp only [pollLoop, h, if_true, hs]
        exact ⟨this.1.trans hc.1, this.2.trans hc.2⟩
      | some k =>
        simp only [pollLoop, h, if_true, hs]
        exact hc
    · simp [pollLoop, h]

end MettlerWorker

open MettlerWorker in
/-- Claim C1 counterexample: a worker whose connection attempt times out
does NOT transition to the stopped state — `run` returns with the
`is_running` flag still `true`, because the `finally:` block clears the
flag only when a connection was opened. -/
theorem connect_fail_not_stopped_cex :
    ¬ ((MettlerWorker.run MettlerWorker.init ConnectOutcome.timeout
        []).state.is_running = false) := by decide

open MettlerWorker in
/-- Claim C1 (amended): when the connection attempt fails with a timeout
or refusal, the cached weight is unchanged and `run` returns without
raising, but the worker is left with `is_running = true`: the `finally:`
block resets the flag only when a connection was opened.  (In the
superseded top-level copy of the worker the same path raises
`UnboundLocalError` from the `finally:` block instead.) -/
theorem connect_fail_amended (st0 : WState) (c : ConnectOutcome)
    (evs : List CycleEvent) (hc : c = .timeout ∨ c = .refused)
    (h0 : st0.connOpened = false) :
    (MettlerWorker.run st0 c evs).state.weight = st0.weight
    ∧ (MettlerWorker.run st0 c evs).escaped = none
    ∧ (MettlerWorker.run st0 c evs).state.is_running = true
    ∧ (MettlerWorker.runOld st0 c evs).escaped = some .unboundLocal := by
  rcases hc with rfl | rfl <;>
    simp [MettlerWorker.run, MettlerWorker.runOld, finallyBlock, h0]

open MettlerWorker in
/-- Witness for the amended C1 at a fresh worker whose connect times out. -/
theorem connect_fail_amended_witness :
    (MettlerWorker.run MettlerWorker.init ConnectOutcome.timeout []).state.weight
        = MettlerWorker.init.weight
    ∧ (MettlerWorker.run MettlerWorker.init ConnectOutcome.timeout []).escaped = none
    ∧ (MettlerWorker.run MettlerWorker.init ConnectOutcome.timeout
        []).state.is_running = true
    ∧ (MettlerWorker.runOld MettlerWorker.init ConnectOutcome.timeout
        []).escaped = some .unboundLocal :=
  connect_fail_amended MettlerWorker.init .timeout [] (Or.inl rfl) rfl

open MettlerWorker in
/-- Claim C2 (code bug, evaluated at the spec's own scenario): after a
good reading `"S S 1.0000 kg"` and then the response `"GARBAGE"`, the
cached weight does stay `1.0` and an error is logged — but the worker
does NOT remain in its polling loop: `parse_six1_response` returns `None`
and `run` subscripts it unguarded, so the `TypeError` aborts the loop
through `except Exception`, the connection is closed, and the third
scripted response is never processed. -/
theorem garbage_response_stops_worker :
    (MettlerWorker.run MettlerWorker.init ConnectOutcome.ok
      [CycleEvent.response "S S 1.0000 kg", CycleEvent.response "GARBAGE",
       CycleEvent.response "S S 2.0000 kg"]) =
    { state :=
        { weight := .finite 1, is_running := false, connOpened := true,
          connClosed := true,
          log := [.infoOpening, .errWorkerError, .infoClosing] },
      exitKind := .exception, escaped := none } := by decide

open MettlerWorker in
/-- Claim C9: `stop()` clears the flag the `while` condition checks, so a
stop landing during a cycle ends the loop at the very next check with no
further event processed; and on every exit path of `run` — normal stop,
error, cancellation, connect failure — a connection that was opened is
closed by the time `run` finishes. -/
theorem stop_and_close_guarantee :
    (∀ (st : WState) (rest : List CycleEvent), st.is_running = true →
       pollLoop (CycleEvent.stopRequest :: rest) st
         = (MettlerWorker.stop st, RunExit.normal))
    ∧ (∀ (st0 : WState) (c : ConnectOutcome) (evs : List CycleEvent),
        st0.connOpened = false →
        (MettlerWorker.run st0 c evs).state.connOpened = true →
        (MettlerWorker.run st0 c evs).state.connClosed = true) := by
  constructor
  · intro st rest h
    simp only [pollLoop, h, if_true, loopStep]
    exact pollLoop_not_running rest (MettlerWorker.stop st) rfl
  · intro st0 c evs h0
    cases c with
    | ok =>
      intro _
      have hc := (pollLoop_conn evs
        ⟨st0.weight, true, true, st0.connClosed,
         st0.log ++ [LogEvent.infoOpening]⟩).1
      simp only [MettlerWorker.run]
      simp [finallyBlock, hc]
    | timeout =>
      intro hop
      simp only [MettlerWorker.run, finallyBlock] at hop ⊢
      simp [h0] at hop
    | refused =>
      intro hop
      simp only [MettlerWorker.run, finallyBlock] at hop ⊢
      simp [h0] at hop

open MettlerWorker in
/-- Witness for C9: a concrete stop request ends the loop at once, and a
concrete completed run with an opened connection has closed it. -/
theorem stop_and_close_guarantee_witness :
    pollLoop [CycleEvent.stopRequest]
        { MettlerWorker.init with is_running := true }
      = (MettlerWorker.stop { MettlerWorker.init with is_running := true },
         RunExit.normal)
    ∧ ((MettlerWorker.run MettlerWorker.init ConnectOutcome.ok
          [CycleEvent.stopRequest]).state.connOpened = true →
       (MettlerWorker.run MettlerWorker.init ConnectOutcome.ok
          [CycleEvent.stopRequest]).state.connClosed = true) :=
  ⟨stop_and_close_guarantee.1 _ [] rfl,
   stop_and_close_guarantee.2 MettlerWorker.init .ok [CycleEvent.stopRequest] rfl⟩

open MettlerWorker in
/-- Claim C10 (implicit): `run` sets `is_running = True` unconditionally
on entry, so running it from a state in which `stop()` was already called
is indistinguishable from running it from a never-stopped state — the
pre-run stop is overwritten and the worker connects and polls (here the
first scripted reading is published). -/
theorem run_overwrites_stop (st0 : WState) (h : st0.is_running = false)
    (c : ConnectOutcome) (evs : List CycleEvent) (s : String) (r : Reading)
    (hp : parse_six1_option s = some r) :
    MettlerWorker.run st0 c evs
      = MettlerWorker.run { st0 with is_running := true } c evs
    ∧ (MettlerWorker.run st0 ConnectOutcome.ok
        [CycleEvent.response s]).state.weight = r.gross := by
  constructor
  · cases st0
    cases c <;> rfl
  · simp [MettlerWorker.run, pollLoop, loopStep, hp, finallyBlock]

open MettlerWorker in
/-- Witness for C10: a stopped-before-start worker still connects, polls
and publishes the scripted reading. -/
theorem run_overwrites_stop_witness :
    MettlerWorker.run MettlerWorker.init ConnectOutcome.ok []
      = MettlerWorker.run { MettlerWorker.init with is_running := true }
          ConnectOutcome.ok []
    ∧ (MettlerWorker.run MettlerWorker.init ConnectOutcome.ok
        [CycleEvent.response "S S 1.0000 kg"]).state.weight
      = Reading.gross { status := "S", gross := .finite 1, unitStr := "kg" } :=
  run_overwrites_stop MettlerWorker.init rfl ConnectOutcome.ok []
    "S S 1.0000 kg" { status := "S", gross := .finite 1, unitStr := "kg" }
    (by decide)

namespace RobustPLC

/-- A disconnected connector answers a whole sequence of `read_db` calls
with `None`, never touching the flag, whatever the device would do. -/
theorem readSeq_disconnected (calls : List (Bool × DevOp (List Nat)))
    (st : PLCState) (h : st.is_connected = false) :
    (readSeq calls st).1 = st
    ∧ (readSeq calls st).2 = List.replicate calls.length none := by
  induction calls generalizing st with
  | nil => simp [readSeq]
  | cons pd rest ih =>
    rcases pd with ⟨p, d⟩
    have hr : read_db st p d =
        { state := st, ret := none, dbAttempts := 0, escaped := none } := by
      simp [read_db, is_connected, h]
    rcases ih st h with ⟨ih1, ih2⟩
    simp [readSeq, hr, List.replicate, ih1, ih2]

end RobustPLC

open RobustPLC in
/-- Claim C4: a `read_db`/`write_db` on a disconnected connector fails
fast — `None`/`False` with zero device operations issued and no internal
retry; a `Snap7Exception` inside the locked operation is caught, demotes
the state to disconnected, and yields the failure value; no exception
ever escapes either call; and once disconnected, every subsequent
`read_db` returns no data (until something else reconnects). -/
theorem plc_rw_failfast (st : PLCState) (probe : Bool)
    (dev : DevOp (List Nat)) (data : List Nat) (devw : DevOp Unit)
    (calls : List (Bool × DevOp (List Nat))) :
    (st.is_connected = false →
       read_db st probe dev =
         { state := st, ret := none, dbAttempts := 0, escaped := none }
       ∧ write_db st probe data devw =
         { state := st, ret := false, dbAttempts := 0, escaped := none })
    ∧ (st.is_connected = true → probe = true →
       read_db st probe .raises =
         { state := ⟨false⟩, ret := none, dbAttempts := 1, escaped := none }
       ∧ write_db st probe data .raises =
         { state := ⟨false⟩, ret := false, dbAttempts := 1, escaped := none })
    ∧ (read_db st probe dev).escaped = none
    ∧ (write_db st probe data devw).escaped = none
    ∧ (st.is_connected = false →
       (readSeq calls st).1 = st
       ∧ (readSeq calls st).2 = List.replicate calls.length none) := by
  refine ⟨?_, ?_, ?_, ?_, fun h => readSeq_disconnected calls st h⟩
  · intro h
    constructor <;> simp [read_db, write_db, is_connected, h]
  · rintro h rfl
    rcases st with ⟨b⟩
    cases b
    · cases h
    · constructor <;> simp [read_db, write_db, is_connected]
  · rcases st with ⟨b⟩
    cases b <;> cases dev <;> simp [read_db, is_connected] <;>
      cases probe <;> simp
  · rcases st with ⟨b⟩
    cases b <;> cases devw <;> simp [write_db, is_connected] <;>
      cases probe <;> simp

open RobustPLC in
/-- Witness for C4: a disconnected read fails fast with no device access,
and a raising locked read demotes the state and returns `None`. -/
theorem plc_rw_failfast_witness :
    read_db ⟨false⟩ true (.ok [7]) =
      { state := ⟨false⟩, ret := none, dbAttempts := 0, escaped := none }
    ∧ read_db ⟨true⟩ true .raises =
      { state := ⟨false⟩, ret := none, dbAttempts := 1, escaped := none } :=
  ⟨((plc_rw_failfast ⟨false⟩ true (.ok [7]) [] (.ok ()) []).1 rfl).1,
   ((plc_rw_failfast ⟨true⟩ true (.ok [7]) [] (.ok ()) []).2.1 rfl rfl).1⟩

open RobustPLC in
/-- Claim C3 (code bug, evaluated at the default 5 s interval): in every
disconnected-state iteration of the background reconnection loop, the
whole retry sleep happens while the mutex is held — the `time.sleep`
sits inside the `with self._lock:` block although the adjacent comment
says it should wait outside the lock — so a foreground `connect` /
`is_connected` / `read_db` / `write_db` arriving during that iteration
blocks on the mutex for up to the full reconnect interval.  (A
connected-state iteration sleeps only after releasing the lock.) -/
theorem reconnect_sleeps_inside_lock :
    sleepWhileLocked (reconnectTick 5 false true false) = 5
    ∧ sleepWhileLocked (reconnectTick 5 false false true) = 5
    ∧ sleepWhileLocked (reconnectTick 5 false false false) = 5
    ∧ sleepWhileLocked (reconnectTick 5 true false true) = 0 := by decide

/-- Claim C7 (code bug, evaluated at a shutdown with one live session and
a running worker task): the packaged `_shutdown` stops accepting, cancels
and awaits the session, then awaits the worker task with the 2 s bound
and force-cancels it — but it never signals the worker to stop
(`mettler_worker.stop()` is not called), so a healthy worker can only
ever leave by force-cancellation; the superseded revision does signal
`stop()` but never cancels the tracked session tasks. -/
theorem shutdown_missing_stop :
    ShutdownAction.signalWorkerStop ∉ shutdownTrace 1 true true
    ∧ ShutdownAction.cancelSessionTask 0 ∉ shutdownTraceOld true true
    ∧ shutdownTrace 1 true true =
        [.closeServer, .cancelSessionTask 0, .awaitSessionTasks,
         .awaitWorkerBounded, .forceCancelWorker, .stopEventLoop]
    ∧ shutdownTraceOld true true =
        [.closeServer, .waitServerClosed, .signalWorkerStop,
         .awaitWorkerBounded, .forceCancelWorker] := by decide

/-- Claim C8 counterexample: neither half of the claim survives the
`__main__` block.  A bind failure does NOT exit the process with a
non-zero code — `run()`'s `sys.exit(1)` raises `SystemExit`, which
`except (KeyboardInterrupt, SystemExit)` swallows, so the interpreter
exits with code 0; and a bind failure is NOT the only fatal failure — a
missing configuration file (no bind ever attempted) exits the process
with code 1, without a critical log. -/
theorem fatal_without_bind_cex :
    (piMain true ServeFault.bindFail).1 = ProcOutcome.exitCode 0
    ∧ (piMain false ServeFault.noFault).1 = ProcOutcome.exitCode 1
    ∧ LogLevel.critical ∉ (piMain false ServeFault.noFault).2 := by
  decide

/-- Claim C8 (amended): in pi_server.py a failure to bind the listening
socket is logged at critical severity and terminates the process, but
the process exits with code 0: the `SystemExit(1)` from `run()`'s
`sys.exit(1)` is swallowed by the `__main__` block's
`except (KeyboardInterrupt, SystemExit)` handler.  Nor is it the only
fatal failure: a missing configuration file exits the process with code
1, because `PiServer(...)` is constructed outside that handler; and any
other exception escaping the serve path takes the same critical-log,
swallowed-`SystemExit`, exit-0 route.  In the packaged hepic_server
revision a bind failure only logs at error severity and `run()` returns,
the process exiting 0.  Device-worker failures never escape the worker's
`run()` and never terminate the process. -/
theorem fatal_failures_amended (st : MettlerWorker.WState)
    (c : MettlerWorker.ConnectOutcome)
    (evs : List MettlerWorker.CycleEvent) :
    piServerRun .bindFail = (.sysExit 1, [.critical])
    ∧ piMain true .bindFail = (.exitCode 0, [.critical, .info])
    ∧ (piMain false .noFault).1 = .exitCode 1
    ∧ piServerRun .serveException = (.sysExit 1, [.critical])
    ∧ (piMain true .serveException).1 = .exitCode 0
    ∧ hepicServerRun .bindFail = (.returns, [.error])
    ∧ hepicMain true .bindFail = (.exitCode 0, [.error])
    ∧ (MettlerWorker.run st c evs).escaped = none := by
  refine ⟨rfl, rfl, rfl, rfl, rfl, rfl, rfl, ?_⟩
  cases c <;> rfl

/-- Witness for the amended C8 at a concrete worker run. -/
theorem fatal_failures_amended_witness :
    piServerRun .bindFail = (.sysExit 1, [.critical])
    ∧ piMain true .bindFail = (.exitCode 0, [.critical, .info])
    ∧ (piMain false .noFault).1 = .exitCode 1
    ∧ piServerRun .serveException = (.sysExit 1, [.critical])
    ∧ (piMain true .serveException).1 = .exitCode 0
    ∧ hepicServerRun .bindFail = (.returns, [.error])
    ∧ hepicMain true .bindFail = (.exitCode 0, [.error])
    ∧ (MettlerWorker.run MettlerWorker.init .refused []).escaped = none :=
  fatal_failures_amended MettlerWorker.init .refused []
